import Mathlib

/-!
Shallow embedding of the credit-metering Telegram bot (`src/bot.py`).

The persistent state (`Database` backed by Postgres in the source) becomes a
pure `DB` structure; each `Database` method becomes a pure function on `DB`.
Each command handler (`start`, `creditos`, `live_search`, `adduser`,
`removeuser`, `setprice`, `addcredits`, `stats`, `cmds`, `perfil`) becomes a
function from configuration, state, caller identity and arguments to a new
state, a typed result (abstracting the rendered reply), and the trace of
store operations the handler invoked.

Timestamps are integers (seconds); a `timedelta(days=d)` is `d * 86400`.
Credits and user ids are `Int` (the columns are signed INT/BIGINT).
-/

namespace BotLives

/-- Environment-derived configuration of the bot: the admin identity and the
default price used when the config table has no price row
(`PRICE_PER_SEARCH = int(os.getenv('PRICE_PER_SEARCH', '5'))`). -/
structure Config where
  ADMIN_ID : Int
  PRICE_PER_SEARCH : Int
deriving DecidableEq

/-- Initial credit grant for auto-registered users (`INITIAL_CREDITS = 100`
at line 27 of bot.py, a hardcoded constant). -/
def INITIAL_CREDITS : Int := 100

/-- One row of the `users` table. -/
structure Account where
  user_id : Int
  username : String
  first_name : String
  last_name : String
  credits : Int
  expiry_date : Int
  created_at : Int
  is_active : Bool
deriving DecidableEq

/-- One row of the append-only `searches` table. -/
structure SearchEntry where
  user_id : Int
  search_term : String
  results_count : Int
  credits_used : Int
  created_at : Int
deriving DecidableEq

/-- The durable state: the `users` table, the `searches` table, and the
`price_per_search` row of the `config` table (`none` when the row is
absent). -/
structure DB where
  users : List Account
  searches : List SearchEntry
  price_row : Option Int
deriving DecidableEq

/-- `Database.get_user`: `SELECT * FROM users WHERE user_id = %s` returning
the row or `None`. -/
def get_user (db : DB) (uid : Int) : Option Account :=
  db.users.find? (fun a => a.user_id == uid)

/-- An SQL `UPDATE users SET ... WHERE user_id = %s`: rewrite every row
matching the id (a no-op when the id is absent). -/
def updateUser (db : DB) (uid : Int) (f : Account → Account) : DB :=
  { db with users := db.users.map (fun a => if a.user_id == uid then f a else a) }

/-- `Database.register_user`: `INSERT ... ON CONFLICT (user_id) DO UPDATE SET
credits = %s, expiry_date = %s, is_active = TRUE`, with
`expiry = datetime.now() + timedelta(days=days)`.  On conflict only
`credits`, `expiry_date`, `is_active` are overwritten; the name columns and
`created_at` keep their prior values. -/
def register_user (db : DB) (uid : Int) (username first_name last_name : String)
    (credits : Int) (days : Int) (now : Int) : DB :=
  let expiry := now + days * 86400
  if (get_user db uid).isSome then
    updateUser db uid (fun a =>
      { a with credits := credits, expiry_date := expiry, is_active := true })
  else
    { db with users := db.users ++
        [⟨uid, username, first_name, last_name, credits, expiry, now, true⟩] }

/-- `Database.deduct_credits`: `UPDATE users SET credits = credits - %s WHERE
user_id = %s`. -/
def deduct_credits (db : DB) (uid : Int) (amount : Int) : DB :=
  updateUser db uid (fun a => { a with credits := a.credits - amount })

/-- `Database.add_credits`: `UPDATE users SET credits = credits + %s WHERE
user_id = %s`. -/
def add_credits (db : DB) (uid : Int) (amount : Int) : DB :=
  updateUser db uid (fun a => { a with credits := a.credits + amount })

/-- `Database.remove_user`: `UPDATE users SET is_active = FALSE WHERE
user_id = %s`. -/
def remove_user (db : DB) (uid : Int) : DB :=
  updateUser db uid (fun a => { a with is_active := false })

/-- `Database.set_price`: `UPDATE config SET value = %s WHERE
key = 'price_per_search'` — an UPDATE, so it changes the row only when it
already exists. -/
def set_price (db : DB) (price : Int) : DB :=
  { db with price_row := db.price_row.map (fun _ => price) }

/-- `Database.get_price`: the stored price when the row exists, otherwise the
configured default `PRICE_PER_SEARCH`. -/
def get_price (cfg : Config) (db : DB) : Int :=
  db.price_row.getD cfg.PRICE_PER_SEARCH

/-- `Database.log_search`: `INSERT INTO searches (user_id, search_term,
results_count, credits_used) VALUES (..., self.get_price())` — note the
method reads the price again at insert time. -/
def log_search (cfg : Config) (db : DB) (uid : Int) (term : String)
    (results : Int) (now : Int) : DB :=
  { db with searches := db.searches ++ [⟨uid, term, results, get_price cfg db, now⟩] }

/-- `Database.get_stats`: the count of active users and of searches logged
today (rows whose `created_at` falls on the current date; a date is a
timestamp divided by 86400). -/
def get_stats (db : DB) (today : Int) : Nat × Nat :=
  ((db.users.filter (fun a => a.is_active)).length,
   (db.searches.filter (fun s => s.created_at.fdiv 86400 == today)).length)

/-- Typed abstraction of the reply each handler renders (the HTML text itself
is presentation and out of scope; each constructor corresponds to one
`reply_text` site in bot.py, and `crash` to an exception escaping the
handler uncaught). -/
inductive Result where
  | notRegistered
  | disabled
  | expired
  | insufficientCredits (price credits : Int)
  | badArguments
  | forbidden
  | searchDone (term : String) (price remaining : Int)
  | actionFailed
  | welcomeNew (uid credits days : Int)
  | welcomeBack (credits expiry : Int)
  | cmdList (isAdmin : Bool)
  | creditsInfo (credits available price : Int)
  | profileInfo (credits expiry : Int) (active : Bool)
  | userAdded (uid credits days : Int)
  | userRemoved (uid : Int)
  | priceSet (price : Int)
  | creditsAdded (uid amount newBalance : Int)
  | statsInfo (users searches : Nat) (price : Int)
  | crash
deriving DecidableEq

/-- One invocation of a `Database` method (one round trip to the store). -/
inductive StoreOp where
  | getUser (uid : Int)
  | registerUser (uid : Int)
  | deductCredits (uid amount : Int)
  | addCredits (uid amount : Int)
  | removeUser (uid : Int)
  | setPrice (price : Int)
  | getPrice
  | logSearch (uid : Int)
  | getStats
deriving DecidableEq

/-- Whether a store operation mutates durable state. -/
def StoreOp.isWrite : StoreOp → Bool
  | .registerUser _ => true
  | .deductCredits _ _ => true
  | .addCredits _ _ => true
  | .removeUser _ => true
  | .setPrice _ => true
  | _ => false

/-- Outcome of running one handler: the state after it, the typed result it
renders, and the trace of store operations it invoked, in order. -/
structure HOut where
  db : DB
  res : Result
  ops : List StoreOp
deriving DecidableEq

/-- Where, if anywhere, the Python exception is raised inside the
`try:` block of `live_search` (lines 449-470).  Each `Database` call commits
on its own connection, so the effects already executed persist when the
exception is raised; the `except` branch (lines 471-478) then runs
`db.add_credits(user_id, price)`.
`beforeDebit`: raised before `deduct_credits` commits (e.g. in the search
logic placeholder at lines 450-451, or inside `deduct_credits` itself);
`afterDebit`: raised after the debit commits and before `log_search`
commits; `afterLog`: raised after `log_search` commits (e.g. while sending
the success reply). -/
inductive FailPoint where
  | beforeDebit
  | afterDebit
  | afterLog
deriving DecidableEq

/-- Handler `start` (bot.py lines 207-280): auto-registers an unknown caller
with `INITIAL_CREDITS` and 30 days, else reports disabled / expired / the
existing profile, mutating nothing. -/
def start (cfg : Config) (db : DB) (caller : Int)
    (username first_name last_name : String) (now : Int) : HOut :=
  match get_user db caller with
  | none =>
    let db1 := register_user db caller username first_name last_name
        INITIAL_CREDITS 30 now
    -- the handler re-reads the row (`user_info = db.get_user(user_id)`) and
    -- then renders the welcome message from INITIAL_CREDITS and the literal 30
    ⟨db1, .welcomeNew caller INITIAL_CREDITS 30,
      [.getUser caller, .registerUser caller, .getUser caller]⟩
  | some u =>
    if u.is_active = false then
      ⟨db, .disabled, [.getUser caller]⟩
    else if now > u.expiry_date then
      ⟨db, .expired, [.getUser caller]⟩
    else
      ⟨db, .welcomeBack u.credits u.expiry_date, [.getUser caller]⟩

/-- Handler `cmds` (lines 282-335): requires registration, renders the
command list (with the admin block for the admin); reads the price for the
cost line. -/
def cmds (cfg : Config) (db : DB) (caller : Int) : HOut :=
  match get_user db caller with
  | none => ⟨db, .notRegistered, [.getUser caller]⟩
  | some _ =>
    ⟨db, .cmdList (caller = cfg.ADMIN_ID), [.getUser caller, .getPrice]⟩

/-- Handler `creditos` (lines 337-364): requires registration; reports the
balance, the affordable search count `user['credits'] // price` (Python
floor division, `Int.fdiv`; a stored price of 0 would raise
ZeroDivisionError in the source — every claim below assumes a positive
price), and the price. -/
def creditos (cfg : Config) (db : DB) (caller : Int) : HOut :=
  match get_user db caller with
  | none => ⟨db, .notRegistered, [.getUser caller]⟩
  | some u =>
    let price := get_price cfg db
    ⟨db, .creditsInfo u.credits (u.credits.fdiv price) price,
      [.getUser caller, .getPrice]⟩

/-- Handler `perfil` (lines 366-394): requires registration; renders the
profile (read-only). -/
def perfil (cfg : Config) (db : DB) (caller : Int) : HOut :=
  match get_user db caller with
  | none => ⟨db, .notRegistered, [.getUser caller]⟩
  | some u =>
    ⟨db, .profileInfo u.credits u.expiry_date u.is_active, [.getUser caller]⟩

/-- Handler `live_search` (lines 396-478), the priced action.  Checks run in
source order: registration, `is_active`, expiry, credits vs price, and only
then the argument-shape check `if not context.args`.  On the happy path the
try block debits, logs the search (with simulated `results_count = 0`) and
reports; `failAt` says where an exception, if any, is raised inside the try
block, after which the except branch refunds by `add_credits`. -/
def live_search (cfg : Config) (db : DB) (caller : Int) (args : List String)
    (now : Int) (failAt : Option FailPoint) : HOut :=
  match get_user db caller with
  | none => ⟨db, .notRegistered, [.getUser caller]⟩
  | some u =>
    if u.is_active = false then
      ⟨db, .disabled, [.getUser caller]⟩
    else if now > u.expiry_date then
      ⟨db, .expired, [.getUser caller]⟩
    else
      let price := get_price cfg db
      if u.credits < price then
        ⟨db, .insufficientCredits price u.credits, [.getUser caller, .getPrice]⟩
      else if args = [] then
        ⟨db, .badArguments, [.getUser caller, .getPrice]⟩
      else
        let term := String.intercalate " " args
        match failAt with
        | some .beforeDebit =>
          ⟨add_credits db caller price, .actionFailed,
            [.getUser caller, .getPrice, .addCredits caller price]⟩
        | some .afterDebit =>
          let db1 := deduct_credits db caller price
          ⟨add_credits db1 caller price, .actionFailed,
            [.getUser caller, .getPrice, .deductCredits caller price,
             .addCredits caller price]⟩
        | some .afterLog =>
          let db1 := deduct_credits db caller price
          let db2 := log_search cfg db1 caller term 0 now
          ⟨add_credits db2 caller price, .actionFailed,
            [.getUser caller, .getPrice, .deductCredits caller price,
             .getPrice, .logSearch caller, .addCredits caller price]⟩
        | none =>
          let db1 := deduct_credits db caller price
          let db2 := log_search cfg db1 caller term 0 now
          ⟨db2, .searchDone term price (u.credits - price),
            [.getUser caller, .getPrice, .deductCredits caller price,
             .getPrice, .logSearch caller]⟩

/-- Decimal digits to a number: `none` when empty or when any character is
not a digit. -/
def digits_to_nat? : List Char → Option Nat
  | [] => none
  | cs => cs.foldl (fun acc c =>
      match acc with
      | none => none
      | some n => if c.isDigit then some (n * 10 + (c.toNat - 48)) else none)
      (some 0)

/-- Models the Python `int(arg)` conversion used by the admin handlers: an
optional leading minus sign followed by decimal digits parses to an
integer; anything else raises ValueError (`none` here).  Python also
accepts surrounding whitespace, a plus sign and underscore grouping; those
are elided, as no claim depends on them. -/
def int_parse? (s : String) : Option Int :=
  match s.data with
  | '-' :: rest => (digits_to_nat? rest).map (fun n => -(n : Int))
  | l => (digits_to_nat? l).map (fun n => (n : Int))

/-- Handler `adduser` (lines 482-525): admin only; needs at least 3
arguments; `int()` parse failure is caught as ValueError (BadArguments);
otherwise registers/renews the target id. -/
def adduser (cfg : Config) (db : DB) (caller : Int) (args : List String)
    (now : Int) : HOut :=
  if caller ≠ cfg.ADMIN_ID then ⟨db, .forbidden, []⟩
  else if args.length < 3 then ⟨db, .badArguments, []⟩
  else
    match int_parse? (args.getD 0 ""), int_parse? (args.getD 1 ""),
        int_parse? (args.getD 2 "") with
    | some uid, some credits, some days =>
      let db1 := register_user db uid ("user_" ++ toString uid) "Agregado"
          "por Admin" credits days now
      ⟨db1, .userAdded uid credits days, [.registerUser uid]⟩
    | _, _, _ => ⟨db, .badArguments, []⟩

/-- Handler `removeuser` (lines 527-554): admin only; needs 1 argument;
deactivates the target id. -/
def removeuser (cfg : Config) (db : DB) (caller : Int) (args : List String) : HOut :=
  if caller ≠ cfg.ADMIN_ID then ⟨db, .forbidden, []⟩
  else if args = [] then ⟨db, .badArguments, []⟩
  else
    match int_parse? (args.getD 0 "") with
    | some uid => ⟨remove_user db uid, .userRemoved uid, [.removeUser uid]⟩
    | none => ⟨db, .badArguments, []⟩

/-- Handler `setprice` (lines 556-583): admin only; needs 1 argument;
updates the global price. -/
def setprice (cfg : Config) (db : DB) (caller : Int) (args : List String) : HOut :=
  if caller ≠ cfg.ADMIN_ID then ⟨db, .forbidden, []⟩
  else if args = [] then ⟨db, .badArguments, []⟩
  else
    match int_parse? (args.getD 0 "") with
    | some p => ⟨set_price db p, .priceSet p, [.setPrice p]⟩
    | none => ⟨db, .badArguments, []⟩

/-- Handler `addcredits` (lines 585-615): admin only; needs 2 arguments;
adds the amount, then re-reads the row and renders
`user['credits']` — when the id was never registered `get_user` returns
`None` and that subscription raises a TypeError, which the
`except ValueError` clause does not catch, so the handler crashes with no
typed reply (`Result.crash`). -/
def addcredits (cfg : Config) (db : DB) (caller : Int) (args : List String) : HOut :=
  if caller ≠ cfg.ADMIN_ID then ⟨db, .forbidden, []⟩
  else if args.length < 2 then ⟨db, .badArguments, []⟩
  else
    match int_parse? (args.getD 0 ""), int_parse? (args.getD 1 "") with
    | some uid, some amount =>
      let db1 := add_credits db uid amount
      match get_user db1 uid with
      | some u =>
        ⟨db1, .creditsAdded uid amount u.credits,
          [.addCredits uid amount, .getUser uid]⟩
      | none => ⟨db1, .crash, [.addCredits uid amount, .getUser uid]⟩
    | _, _ => ⟨db, .badArguments, []⟩

/-- Handler `stats` (lines 617-639): admin only; reports active users,
searches today and the price. -/
def stats (cfg : Config) (db : DB) (caller : Int) (now : Int) : HOut :=
  if caller ≠ cfg.ADMIN_ID then ⟨db, .forbidden, []⟩
  else
    let s := get_stats db (now.fdiv 86400)
    ⟨db, .statsInfo s.1 s.2 (get_price cfg db), [.getStats, .getPrice]⟩

/-- The ten registered commands (bot.py lines 648-659). -/
inductive Cmd where
  | start | cmds | creditos | perfil | live
  | adduser | removeuser | setprice | addcredits | stats
deriving DecidableEq

/-- The dispatcher: route an inbound (caller, command, args) to its handler.
`username`, `first_name`, `last_name` come with the update and only `start`
uses them; `failAt` only matters to `live`. -/
def handle (cfg : Config) (db : DB) (caller : Int)
    (username first_name last_name : String) (cmd : Cmd) (args : List String)
    (now : Int) (failAt : Option FailPoint) : HOut :=
  match cmd with
  | .start => start cfg db caller username first_name last_name now
  | .cmds => cmds cfg db caller
  | .creditos => creditos cfg db caller
  | .perfil => perfil cfg db caller
  | .live => live_search cfg db caller args now failAt
  | .adduser => adduser cfg db caller args now
  | .removeuser => removeuser cfg db caller args
  | .setprice => setprice cfg db caller args
  | .addcredits => addcredits cfg db caller args
  | .stats => stats cfg db caller now

/-!
Interleaving model of two concurrent `/live` charges against the same
account.  Each inbound command is an independent unit of work and every
`Database` call is its own round trip (own connection, own commit), so two
concurrent `live_search` executions interleave at `Database`-call
granularity.  For the credit balance only three points matter in
`live_search`: the snapshot read (`db.get_user`, line 399), the local check
`user['credits'] < price` against that snapshot (line 424), and the atomic
debit (`deduct_credits`, line 453).  The eligibility tests and the log write
never touch `credits` and are elided.
-/

/-- Control state of one in-flight charge: program counter (0 = about to
read the snapshot, 1 = about to run the balance check on the snapshot,
2 = about to debit, 3 = finished), the snapshot of `credits`, and the
outcome (`some true` = charged, `some false` = rejected). -/
structure ChargeThread where
  pc : Nat
  snap : Int
  ok : Option Bool
deriving DecidableEq

/-- A charge thread that has not yet started. -/
def initThread : ChargeThread := ⟨0, 0, none⟩

/-- One atomic step of a charge thread against the shared state. -/
def threadStep (cfg : Config) (uid : Int) (db : DB) (t : ChargeThread) :
    DB × ChargeThread :=
  match t.pc with
  | 0 =>
    match get_user db uid with
    | some u => (db, { t with pc := 1, snap := u.credits })
    | none => (db, { t with pc := 3, ok := some false })
  | 1 =>
    if t.snap < get_price cfg db then
      (db, { t with pc := 3, ok := some false })
    else
      (db, { t with pc := 2 })
  | 2 =>
    (deduct_credits db uid (get_price cfg db), { t with pc := 3, ok := some true })
  | _ => (db, t)

/-- Run two charge threads A and B under a schedule: `false` steps A,
`true` steps B. -/
def runSched (cfg : Config) (uid : Int) :
    DB → ChargeThread → ChargeThread → List Bool → DB × ChargeThread × ChargeThread
  | db, ta, tb, [] => (db, ta, tb)
  | db, ta, tb, false :: rest =>
    let s := threadStep cfg uid db ta
    runSched cfg uid s.1 s.2 tb rest
  | db, ta, tb, true :: rest =>
    let s := threadStep cfg uid db tb
    runSched cfg uid s.1 ta s.2 rest

/-!
Helper lemmas about the store operations.
-/

/-- Rewriting the rows matching an id and then looking that id up finds the
rewritten first match, provided the rewrite preserves the id. -/
theorem find?_map_ite (l : List Account) (uid : Int) (f : Account → Account)
    (hf : ∀ a, (f a).user_id = a.user_id) :
    (l.map (fun a => if a.user_id == uid then f a else a)).find?
        (fun a => a.user_id == uid)
      = (l.find? (fun a => a.user_id == uid)).map f := by
  induction l with
  | nil => rfl
  | cons a l ih =>
    cases hb : (a.user_id == uid) with
    | true =>
      have hfb : ((f a).user_id == uid) = true := by rw [hf]; exact hb
      simp only [List.map_cons, hb, if_true, List.find?_cons, hfb]
      rfl
    | false =>
      simp only [List.map_cons, List.find?_cons, ih]
      simp [hb]

/-- Reading back the updated id after `updateUser`. -/
theorem get_user_updateUser (db : DB) (uid : Int) (f : Account → Account)
    (hf : ∀ a, (f a).user_id = a.user_id) :
    get_user (updateUser db uid f) uid = (get_user db uid).map f :=
  find?_map_ite db.users uid f hf

/-- An `UPDATE ... WHERE user_id = uid` on an absent id changes nothing. -/
theorem updateUser_not_found (db : DB) (uid : Int) (f : Account → Account)
    (h : get_user db uid = none) :
    updateUser db uid f = db := by
  have h2 := List.find?_eq_none.mp h
  have hmap : db.users.map (fun a => if a.user_id == uid then f a else a)
      = db.users := by
    calc db.users.map (fun a => if a.user_id == uid then f a else a)
        = db.users.map id := by
          apply List.map_congr_left
          intro a ha
          simp [h2 a ha]
      _ = db.users := List.map_id db.users
  show { db with users := _ } = db
  rw [hmap]

/-- Looking up a freshly appended row when the id was absent before. -/
theorem find?_append_new (l : List Account) (p : Account → Bool) (a : Account)
    (h : l.find? p = none) (ha : p a = true) :
    (l ++ [a]).find? p = some a := by
  rw [List.find?_append, h, Option.none_or, List.find?_cons, ha]

/-!
Preservation lemmas (each `Database` write touches exactly one table).
-/

/-- `log_search` leaves the users table unchanged. -/
theorem get_user_log_search (cfg : Config) (db : DB) (uid : Int) (term : String)
    (results now uid2 : Int) :
    get_user (log_search cfg db uid term results now) uid2 = get_user db uid2 := rfl

/-- Effect of `deduct_credits` on the debited row. -/
theorem get_user_deduct (db : DB) (uid p : Int) :
    get_user (deduct_credits db uid p) uid
      = (get_user db uid).map (fun a => { a with credits := a.credits - p }) :=
  get_user_updateUser db uid _ (fun _ => rfl)

/-- Effect of `add_credits` on the credited row. -/
theorem get_user_add (db : DB) (uid p : Int) :
    get_user (add_credits db uid p) uid
      = (get_user db uid).map (fun a => { a with credits := a.credits + p }) :=
  get_user_updateUser db uid _ (fun _ => rfl)

/-!
Concrete fixtures used by the witness and counterexample theorems below.
-/

/-- Fixture configuration: admin id 99, default price 5. -/
def cfg0 : Config := ⟨99, 5⟩

/-- Fixture account: id 1, 10 credits, expiry 1000, active. -/
def acct1 : Account := ⟨1, "u", "f", "l", 10, 1000, 0, true⟩

/-- Fixture state: one account, empty log, stored price 5. -/
def db0 : DB := ⟨[acct1], [], some 5⟩

/-- Fixture account holding exactly one action's worth of credit
(credits = 5 = price). -/
def acctEx : Account := ⟨1, "u", "f", "l", 5, 1000, 0, true⟩

/-- Fixture state for the concurrency scenario: credits = price = 5. -/
def dbEx : DB := ⟨[acctEx], [], some 5⟩

/-- Fixture account with 23 credits (the quoting example of the spec). -/
def acct23 : Account := ⟨3, "u", "f", "l", 23, 1000, 0, true⟩

/-- Fixture state for the quoting example: 23 credits, price 5. -/
def db23 : DB := ⟨[acct23], [], some 5⟩

/-- Fixture account that is both disabled and expired at `now = 2000`. -/
def acctDis : Account := ⟨4, "u", "f", "l", 10, 1000, 0, false⟩

/-- Fixture state containing the disabled-and-expired account. -/
def dbDis : DB := ⟨[acctDis], [], some 5⟩

/-- Fixture account with credits 3 (below the price 5). -/
def acctPoor : Account := ⟨6, "u", "f", "l", 3, 1000, 0, true⟩

/-- Fixture state for the insufficient-credits scenario. -/
def dbPoor : DB := ⟨[acctPoor], [], some 5⟩

/-!
Claim theorems.
-/

/-- C2: for every account with `credits >= price` and OK eligibility
(registered, active, not expired), a `/live` whose try block raises no
exception leaves the account's credits at `credits_before - price` and
appends exactly one search-log entry whose `credits_used` field equals the
price in effect at charge time. -/
theorem C2_live_success_charges_once (cfg : Config) (db : DB)
    (caller now : Int) (args : List String) (u : Account)
    (hu : get_user db caller = some u) (hact : u.is_active = true)
    (hexp : ¬ now > u.expiry_date) (hcred : ¬ u.credits < get_price cfg db)
    (hargs : args ≠ []) :
    (get_user (live_search cfg db caller args now none).db caller).map
        Account.credits
      = some (u.credits - get_price cfg db)
    ∧ (live_search cfg db caller args now none).db.searches
      = db.searches ++
          [⟨caller, String.intercalate " " args, 0, get_price cfg db, now⟩]
    ∧ (live_search cfg db caller args now none).res
      = .searchDone (String.intercalate " " args) (get_price cfg db)
          (u.credits - get_price cfg db) := by
  have hstep : live_search cfg db caller args now none
      = ⟨log_search cfg (deduct_credits db caller (get_price cfg db)) caller
            (String.intercalate " " args) 0 now,
         .searchDone (String.intercalate " " args) (get_price cfg db)
            (u.credits - get_price cfg db),
         [.getUser caller, .getPrice, .deductCredits caller (get_price cfg db),
          .getPrice, .logSearch caller]⟩ := by
    unfold live_search
    rw [hu]
    simp [hact, hexp, hcred, hargs]
  rw [hstep]
  refine ⟨?_, ?_, rfl⟩
  · rw [get_user_log_search, get_user_deduct, hu]
    rfl
  · rfl

/-- Witness for C2 at the fixture: 10 credits, price 5, term "foo". -/
theorem C2_witness :
    (get_user (live_search cfg0 db0 1 ["foo"] 0 none).db 1).map
        Account.credits
      = some (acct1.credits - get_price cfg0 db0)
    ∧ (live_search cfg0 db0 1 ["foo"] 0 none).db.searches
      = db0.searches ++
          [⟨1, String.intercalate " " ["foo"], 0, get_price cfg0 db0, 0⟩]
    ∧ (live_search cfg0 db0 1 ["foo"] 0 none).res
      = .searchDone (String.intercalate " " ["foo"]) (get_price cfg0 db0)
          (acct1.credits - get_price cfg0 db0) :=
  C2_live_success_charges_once cfg0 db0 1 0 ["foo"] acct1 (by decide)
    (by decide) (by decide) (by decide) (by decide)

/-- C1 counterexample: the claim "a failed /live leaves credits unchanged
and appends no log entry" fails on the code.  At the fixture (10 credits,
price 5): an exception raised after `log_search` committed (e.g. while
sending the success reply) leaves the refund applied but ONE log entry in
the table; and an exception raised before `deduct_credits` committed makes
the unconditional refund in the except branch ADD 5 credits, leaving 15
instead of 10. -/
theorem C1_counterexample :
    (live_search cfg0 db0 1 ["foo"] 0 (some .afterLog)).res = .actionFailed
    ∧ db0.searches.length = 0
    ∧ (live_search cfg0 db0 1 ["foo"] 0 (some .afterLog)).db.searches.length = 1
    ∧ (live_search cfg0 db0 1 ["foo"] 0 (some .beforeDebit)).res = .actionFailed
    ∧ (get_user db0 1).map Account.credits = some 10
    ∧ (get_user (live_search cfg0 db0 1 ["foo"] 0 (some .beforeDebit)).db 1).map
        Account.credits = some 15 := by
  decide

/-- C1 amended: for every account and every failed `/live`, the refund is
attempted unconditionally, so the outcome depends on where inside the try
block the exception was raised.  When it was raised after the debit
committed (`afterDebit` or `afterLog`) the charge is fully reversed
(`credits_after = credits_before`); no log entry is appended exactly when
the exception preceded the `log_search` commit (`beforeDebit` or
`afterDebit`), while an `afterLog` failure leaves one appended entry; a
failure before the debit committed leaves
`credits_after = credits_before + price` (a refund with no matching
debit). -/
theorem C1_refund_depends_on_failpoint (cfg : Config) (db : DB)
    (caller now : Int) (args : List String) (u : Account)
    (hu : get_user db caller = some u) (hact : u.is_active = true)
    (hexp : ¬ now > u.expiry_date) (hcred : ¬ u.credits < get_price cfg db)
    (hargs : args ≠ []) :
    (∀ fp : FailPoint, fp ≠ .beforeDebit →
      (get_user (live_search cfg db caller args now (some fp)).db caller).map
          Account.credits = some u.credits)
    ∧ (live_search cfg db caller args now (some .beforeDebit)).db.searches
        = db.searches
    ∧ (live_search cfg db caller args now (some .afterDebit)).db.searches
        = db.searches
    ∧ (live_search cfg db caller args now (some .afterLog)).db.searches.length
        = db.searches.length + 1
    ∧ (get_user (live_search cfg db caller args now (some .beforeDebit)).db
          caller).map Account.credits
        = some (u.credits + get_price cfg db)
    ∧ (∀ fp : FailPoint,
        (live_search cfg db caller args now (some fp)).res = .actionFailed) := by
  have hstep : ∀ fp : FailPoint, live_search cfg db caller args now (some fp)
      = match fp with
        | .beforeDebit =>
          ⟨add_credits db caller (get_price cfg db), .actionFailed,
            [.getUser caller, .getPrice,
             .addCredits caller (get_price cfg db)]⟩
        | .afterDebit =>
          ⟨add_credits (deduct_credits db caller (get_price cfg db)) caller
              (get_price cfg db), .actionFailed,
            [.getUser caller, .getPrice,
             .deductCredits caller (get_price cfg db),
             .addCredits caller (get_price cfg db)]⟩
        | .afterLog =>
          ⟨add_credits
              (log_search cfg (deduct_credits db caller (get_price cfg db))
                caller (String.intercalate " " args) 0 now)
              caller (get_price cfg db), .actionFailed,
            [.getUser caller, .getPrice,
             .deductCredits caller (get_price cfg db), .getPrice,
             .logSearch caller, .addCredits caller (get_price cfg db)]⟩ := by
    intro fp
    unfold live_search
    rw [hu]
    cases fp <;> simp [hact, hexp, hcred, hargs]
  refine ⟨?_, ?_, ?_, ?_, ?_, ?_⟩
  · intro fp hfp
    cases fp with
    | beforeDebit => exact absurd rfl hfp
    | afterDebit =>
      rw [hstep .afterDebit]
      show (get_user (add_credits (deduct_credits db caller _) caller _)
          caller).map Account.credits = _
      rw [get_user_add, get_user_deduct, hu]
      show some (u.credits - get_price cfg db + get_price cfg db) = _
      rw [sub_add_cancel]
    | afterLog =>
      rw [hstep .afterLog]
      show (get_user (add_credits (log_search cfg (deduct_credits db caller _)
          caller _ 0 now) caller _) caller).map Account.credits = _
      rw [get_user_add, get_user_log_search, get_user_deduct, hu]
      show some (u.credits - get_price cfg db + get_price cfg db) = _
      rw [sub_add_cancel]
  · rw [hstep .beforeDebit]
    rfl
  · rw [hstep .afterDebit]
    rfl
  · rw [hstep .afterLog]
    show (db.searches ++ [_]).length = _
    simp
  · rw [hstep .beforeDebit]
    rw [get_user_add, hu]
    rfl
  · intro fp
    rw [hstep fp]
    cases fp <;> rfl

/-- Witness for the amended C1 at the fixture (10 credits, price 5): a
failure after the debit restores the 10 credits and a failure before the
log write appends nothing. -/
theorem C1_witness :
    (get_user (live_search cfg0 db0 1 ["foo"] 0 (some .afterDebit)).db 1).map
        Account.credits = some acct1.credits
    ∧ (live_search cfg0 db0 1 ["foo"] 0 (some .afterDebit)).db.searches
        = db0.searches :=
  ⟨(C1_refund_depends_on_failpoint cfg0 db0 1 0 ["foo"] acct1 (by decide)
      (by decide) (by decide) (by decide) (by decide)).1 .afterDebit
      (by decide),
   (C1_refund_depends_on_failpoint cfg0 db0 1 0 ["foo"] acct1 (by decide)
      (by decide) (by decide) (by decide) (by decide)).2.2.1⟩

/-- C4: for every eligible account (registered, active, not expired) whose
credits are strictly below the current price, `/live` is rejected with
InsufficientCredits before any debit is attempted: the state is completely
unchanged (so credits unchanged and no log entry) and no write operation is
issued, whatever the arguments and wherever a later exception would have
been raised. -/
theorem C4_insufficient_rejected_before_debit (cfg : Config) (db : DB)
    (caller now : Int) (args : List String) (failAt : Option FailPoint)
    (u : Account) (hu : get_user db caller = some u) (hact : u.is_active = true)
    (hexp : ¬ now > u.expiry_date) (hcred : u.credits < get_price cfg db) :
    (live_search cfg db caller args now failAt).res
      = .insufficientCredits (get_price cfg db) u.credits
    ∧ (live_search cfg db caller args now failAt).db = db
    ∧ ∀ op ∈ (live_search cfg db caller args now failAt).ops,
        op.isWrite = false := by
  have hstep : live_search cfg db caller args now failAt
      = ⟨db, .insufficientCredits (get_price cfg db) u.credits,
         [.getUser caller, .getPrice]⟩ := by
    unfold live_search
    rw [hu]
    simp [hact, hexp, hcred]
  rw [hstep]
  refine ⟨rfl, rfl, ?_⟩
  intro op hop
  simp only [List.mem_cons, List.mem_singleton] at hop
  rcases hop with h | h | h
  · rw [h]; rfl
  · rw [h]; rfl
  · cases h

/-- Witness for C4: 3 credits, price 5 (scenario D of the spec). -/
theorem C4_witness :
    (live_search cfg0 dbPoor 6 ["foo"] 0 none).res
      = .insufficientCredits (get_price cfg0 dbPoor) acctPoor.credits
    ∧ (live_search cfg0 dbPoor 6 ["foo"] 0 none).db = dbPoor
    ∧ ∀ op ∈ (live_search cfg0 dbPoor 6 ["foo"] 0 none).ops,
        op.isWrite = false :=
  C4_insufficient_rejected_before_debit cfg0 dbPoor 6 0 ["foo"] none acctPoor
    (by decide) (by decide) (by decide) (by decide)

/-- C5: eligibility is checked existence, then active, then expiry, so an
account that is both disabled (`is_active = false`) and expired
(`now > expiry_date`) is reported Disabled, never Expired, both by `/live`
and by `/start`. -/
theorem C5_disabled_precedes_expired (cfg : Config) (db : DB)
    (caller now : Int) (args : List String) (failAt : Option FailPoint)
    (un fn ln : String) (u : Account) (hu : get_user db caller = some u)
    (hdis : u.is_active = false) (hexp : now > u.expiry_date) :
    (live_search cfg db caller args now failAt).res = .disabled
    ∧ (start cfg db caller un fn ln now).res = .disabled := by
  constructor
  · unfold live_search
    rw [hu]
    simp [hdis]
  · unfold start
    rw [hu]
    simp [hdis]

/-- Witness for C5: the fixture account is disabled and expired at
`now = 2000`. -/
theorem C5_witness :
    (live_search cfg0 dbDis 4 ["foo"] 2000 none).res = .disabled
    ∧ (start cfg0 dbDis 4 "u" "f" "l" 2000).res = .disabled :=
  C5_disabled_precedes_expired cfg0 dbDis 4 2000 ["foo"] none "u" "f" "l"
    acctDis (by decide) (by decide) (by decide)

/-- C6: re-registering an already-registered id fully overwrites the
account's credits and expiry with the new values and sets
`is_active = true`, regardless of the prior balance, expiry or active flag
(the name columns and `created_at` keep their prior values; nothing is
added to the old balance or validity). -/
theorem C6_reregistration_overwrites (db : DB) (uid : Int)
    (un fn ln : String) (credits days now : Int) (a : Account)
    (ha : get_user db uid = some a) :
    get_user (register_user db uid un fn ln credits days now) uid
      = some { a with
               credits := credits,
               expiry_date := now + days * 86400,
               is_active := true } := by
  unfold register_user
  rw [ha]
  simp only [Option.isSome_some, if_true]
  have h2 := get_user_updateUser db uid
    (fun a => { a with
                credits := credits,
                expiry_date := now + days * 86400,
                is_active := true })
    (fun _ => rfl)
  rw [h2, ha]
  rfl

/-- Witness for C6: renewing the fixture account (10 credits, expiry 1000,
active) to 50 credits and 7 days at `now = 100`. -/
theorem C6_witness :
    get_user (register_user db0 1 "x" "y" "z" 50 7 100) 1
      = some { acct1 with
               credits := 50,
               expiry_date := 100 + 7 * 86400,
               is_active := true } :=
  C6_reregistration_overwrites db0 1 "x" "y" "z" 50 7 100 acct1 (by decide)

/-- C7: for every registered account with non-negative credits and positive
stored price, the affordable-actions count reported by `/creditos` is the
floor of credits divided by price (the Python `//`; on these operands
`Int.fdiv` agrees with `Int.div`). -/
theorem C7_affordable_is_floor_div (cfg : Config) (db : DB) (caller : Int)
    (u : Account) (hu : get_user db caller = some u) (hnn : 0 ≤ u.credits)
    (hp : 0 < get_price cfg db) :
    (creditos cfg db caller).res
      = .creditsInfo u.credits (u.credits / get_price cfg db)
          (get_price cfg db) := by
  unfold creditos
  rw [hu]
  have hdiv : u.credits.fdiv (get_price cfg db) = u.credits / get_price cfg db :=
    Int.fdiv_eq_ediv u.credits (le_of_lt hp)
  simp [hdiv]

/-- Witness for C7: credits 23, price 5 gives 4 affordable searches. -/
theorem C7_witness :
    (creditos cfg0 db23 3).res = .creditsInfo 23 4 5 := by
  have h := C7_affordable_is_floor_div cfg0 db23 3 acct23 (by decide)
    (by decide) (by decide)
  norm_num [get_price, db23, acct23, cfg0] at h
  exact h

/-- C8: `/start` auto-registers an unknown caller with the default initial
credits (100), a 30-day validity window and `active = true`, and reports the
new profile; for a caller who already has an account — whether active,
expired or disabled — it only reports the profile or an eligibility failure
and never re-registers or mutates any account (the state is returned
untouched). -/
theorem C8_start_autoregisters_or_reports (cfg : Config) (db : DB)
    (caller now : Int) (un fn ln : String) :
    (get_user db caller = none →
      (start cfg db caller un fn ln now).res = .welcomeNew caller 100 30
      ∧ get_user (start cfg db caller un fn ln now).db caller
          = some ⟨caller, un, fn, ln, 100, now + 30 * 86400, now, true⟩)
    ∧ (∀ u, get_user db caller = some u →
        (start cfg db caller un fn ln now).db = db
        ∧ ((start cfg db caller un fn ln now).res = .disabled
           ∨ (start cfg db caller un fn ln now).res = .expired
           ∨ (start cfg db caller un fn ln now).res
               = .welcomeBack u.credits u.expiry_date)) := by
  constructor
  · intro hnone
    have hstep : start cfg db caller un fn ln now
        = ⟨{ db with users := db.users ++
              [⟨caller, un, fn, ln, 100, now + 30 * 86400, now, true⟩] },
           .welcomeNew caller 100 30,
           [.getUser caller, .registerUser caller, .getUser caller]⟩ := by
      unfold start register_user
      rw [hnone]
      simp [INITIAL_CREDITS]
    rw [hstep]
    refine ⟨rfl, ?_⟩
    show (db.users ++ [_]).find? _ = _
    exact find?_append_new db.users _ _ hnone (by simp)
  · intro u hu
    unfold start
    rw [hu]
    by_cases hdis : u.is_active = false
    · simp [hdis]
    · by_cases hexp : now > u.expiry_date
      · simp [hdis, hexp]
      · simp [hdis, hexp]

/-- Witness for C8 (scenario A shape): caller 7 is unknown in the fixture
state and gets an account with 100 credits, expiry `now + 30` days and
`active = true`; caller 1 already exists and the state is untouched. -/
theorem C8_witness :
    ((start cfg0 db0 7 "nu" "nf" "nl" 0).res = .welcomeNew 7 100 30
      ∧ get_user (start cfg0 db0 7 "nu" "nf" "nl" 0).db 7
          = some ⟨7, "nu", "nf", "nl", 100, 0 + 30 * 86400, 0, true⟩)
    ∧ (start cfg0 db0 1 "u" "f" "l" 0).db = db0 :=
  ⟨(C8_start_autoregisters_or_reports cfg0 db0 7 0 "nu" "nf" "nl").1
      (by decide),
   ((C8_start_autoregisters_or_reports cfg0 db0 1 0 "u" "f" "l").2 acct1
      (by decide)).1⟩

/-- C10: `/addcredits id amount` from the admin with numeric arguments, for
an id with no registered account: the `UPDATE` matches no row, so no
account is created and none is changed (the state is returned untouched),
but the handler then subscripts the absent row (`user['credits']` on
`None`) while composing its success reply; the resulting TypeError is not
caught by the `except ValueError` clause, so the input ends in an uncaught
error instead of a typed user-facing result. -/
theorem C10_addcredits_unregistered_crashes (cfg : Config) (db : DB)
    (s1 s2 : String) (uid amount : Int) (h1 : int_parse? s1 = some uid)
    (h2 : int_parse? s2 = some amount) (habs : get_user db uid = none) :
    (addcredits cfg db cfg.ADMIN_ID [s1, s2]).db = db
    ∧ (addcredits cfg db cfg.ADMIN_ID [s1, s2]).res = .crash := by
  have hadd : add_credits db uid amount = db :=
    updateUser_not_found db uid _ habs
  have hstep : addcredits cfg db cfg.ADMIN_ID [s1, s2]
      = ⟨db, .crash, [.addCredits uid amount, .getUser uid]⟩ := by
    unfold addcredits
    rw [if_neg (by simp), if_neg (by simp)]
    have e1 : ([s1, s2].getD 0 "") = s1 := rfl
    have e2 : ([s1, s2].getD 1 "") = s2 := rfl
    rw [e1, e2, h1, h2]
    simp only [hadd, habs]
  rw [hstep]
  exact ⟨rfl, rfl⟩

/-- Witness for C10: admin (id 99) tops up the unregistered id 7 in the
fixture state. -/
theorem C10_witness :
    (addcredits cfg0 db0 cfg0.ADMIN_ID ["7", "5"]).db = db0
    ∧ (addcredits cfg0 db0 cfg0.ADMIN_ID ["7", "5"]).res = .crash :=
  C10_addcredits_unregistered_crashes cfg0 db0 "7" "5" 7 5 (by decide)
    (by decide) (by decide)

/-- C3 counterexample: the claim that an argument-shape failure yields
BadArguments "without invoking any Entitlement Service operation" fails on
the code.  A registered, eligible, funded caller sending `/live` with no
arguments gets BadArguments, but only after the handler has already invoked
the account load and the price read (lines 399 and 423 run before the
argument check at line 434). -/
theorem C3_counterexample :
    (handle cfg0 db0 1 "u" "f" "l" .live [] 0 none).res = .badArguments
    ∧ (handle cfg0 db0 1 "u" "f" "l" .live [] 0 none).ops
        = [.getUser 1, .getPrice] := by
  decide

/-- C3 amended: for every inbound command, a permission failure yields
Forbidden without invoking any store operation and without any state
change; an argument-shape failure yields BadArguments without any state
change and without invoking any WRITE operation — though `/live` resolves
its argument check only after read-only store calls (account load and
price read), so BadArguments there is not resolved purely in the
dispatcher; in particular a non-admin caller sending setprice gets
Forbidden and leaves the stored price (the whole state) unchanged. -/
theorem C3_forbidden_badargs_no_state_change (cfg : Config) (db : DB)
    (caller : Int) (un fn ln : String) (cmd : Cmd) (args : List String)
    (now : Int) (failAt : Option FailPoint) :
    ((handle cfg db caller un fn ln cmd args now failAt).res = .forbidden →
      (handle cfg db caller un fn ln cmd args now failAt).db = db
      ∧ (handle cfg db caller un fn ln cmd args now failAt).ops = [])
    ∧ ((handle cfg db caller un fn ln cmd args now failAt).res = .badArguments →
      (handle cfg db caller un fn ln cmd args now failAt).db = db
      ∧ ∀ op ∈ (handle cfg db caller un fn ln cmd args now failAt).ops,
          op.isWrite = false)
    ∧ (caller ≠ cfg.ADMIN_ID →
      (handle cfg db caller un fn ln .setprice args now failAt).res = .forbidden
      ∧ (handle cfg db caller un fn ln .setprice args now failAt).db = db) := by
  refine ⟨?_, ?_, ?_⟩
  · cases cmd <;>
      simp only [handle, start, cmds, creditos, perfil, live_search, adduser,
        removeuser, setprice, addcredits, stats] <;>
      (repeat' split) <;>
      simp_all [StoreOp.isWrite]
  · cases cmd <;>
      simp only [handle, start, cmds, creditos, perfil, live_search, adduser,
        removeuser, setprice, addcredits, stats] <;>
      (repeat' split) <;>
      simp_all [StoreOp.isWrite]
  · intro h
    unfold handle setprice
    rw [if_pos h]
    exact ⟨rfl, rfl⟩

/-- Witness for the amended C3: the non-admin caller 1 sending
`setprice 10` (scenario E) gets Forbidden with the state — hence the
stored price — unchanged. -/
theorem C3_witness :
    (handle cfg0 db0 1 "u" "f" "l" .setprice ["10"] 0 none).res = .forbidden
    ∧ (handle cfg0 db0 1 "u" "f" "l" .setprice ["10"] 0 none).db = db0 :=
  (C3_forbidden_badargs_no_state_change cfg0 db0 1 "u" "f" "l" .setprice
    ["10"] 0 none).2.2 (by decide)

/-- C9 counterexample: the claim "two simultaneous charges against an
account with credits == price result in at most one success" fails on the
code, which checks the balance against a stale snapshot and then debits
unconditionally.  At the fixture (credits = price = 5), the interleaving in
which both threads read their snapshot before either debits lets BOTH
succeed and drives the balance to -5. -/
theorem C9_counterexample :
    (runSched cfg0 1 dbEx initThread initThread
        [false, true, false, true, false, true]).2.1.ok = some true
    ∧ (runSched cfg0 1 dbEx initThread initThread
        [false, true, false, true, false, true]).2.2.ok = some true
    ∧ (get_user (runSched cfg0 1 dbEx initThread initThread
        [false, true, false, true, false, true]).1 1).map Account.credits
        = some (-5) := by
  decide

/-- C9 amended: two concurrent charges against an account whose credits
equal exactly one action's price MAY both succeed when their snapshot reads
interleave before either debit (see the counterexample); at most one
success is guaranteed only when the executions do not interleave: run
serially, the first charge succeeds, the second observes the depleted
balance and is rejected with InsufficientCredits, and the final balance
is 0. -/
theorem C9_serial_at_most_one_success (cfg : Config) (db : DB) (uid : Int)
    (u : Account) (hu : get_user db uid = some u)
    (hc : u.credits = get_price cfg db) (hp : 0 < get_price cfg db) :
    (runSched cfg uid db initThread initThread
        [false, false, false, true, true, true]).2.1.ok = some true
    ∧ (runSched cfg uid db initThread initThread
        [false, false, false, true, true, true]).2.2.ok = some false
    ∧ (get_user (runSched cfg uid db initThread initThread
        [false, false, false, true, true, true]).1 uid).map Account.credits
        = some 0 := by
  have hdgu : get_user (deduct_credits db uid (get_price cfg db)) uid
      = some { u with credits := u.credits - get_price cfg db } := by
    rw [get_user_deduct, hu]
    rfl
  have hdp : get_price cfg (deduct_credits db uid (get_price cfg db))
      = get_price cfg db := rfl
  have s1 : threadStep cfg uid db initThread = (db, ⟨1, u.credits, none⟩) := by
    unfold threadStep initThread
    rw [hu]
  have s2 : threadStep cfg uid db ⟨1, u.credits, none⟩
      = (db, ⟨2, u.credits, none⟩) := by
    unfold threadStep
    simp only [hc, lt_self_iff_false, if_false]
  have s3 : threadStep cfg uid db ⟨2, u.credits, none⟩
      = (deduct_credits db uid (get_price cfg db),
         ⟨3, u.credits, some true⟩) := rfl
  have s4 : threadStep cfg uid (deduct_credits db uid (get_price cfg db))
        initThread
      = (deduct_credits db uid (get_price cfg db),
         ⟨1, u.credits - get_price cfg db, none⟩) := by
    unfold threadStep initThread
    rw [hdgu]
  have s5 : threadStep cfg uid (deduct_credits db uid (get_price cfg db))
        ⟨1, u.credits - get_price cfg db, none⟩
      = (deduct_credits db uid (get_price cfg db),
         ⟨3, u.credits - get_price cfg db, some false⟩) := by
    unfold threadStep
    have hlt : u.credits - get_price cfg db
        < get_price cfg (deduct_credits db uid (get_price cfg db)) := by
      rw [hdp, hc]
      omega
    simp only [hlt, if_true]
  have s6 : threadStep cfg uid (deduct_credits db uid (get_price cfg db))
        ⟨3, u.credits - get_price cfg db, some false⟩
      = (deduct_credits db uid (get_price cfg db),
         ⟨3, u.credits - get_price cfg db, some false⟩) := rfl
  have hrun : runSched cfg uid db initThread initThread
        [false, false, false, true, true, true]
      = (deduct_credits db uid (get_price cfg db),
         ⟨3, u.credits, some true⟩,
         ⟨3, u.credits - get_price cfg db, some false⟩) := by
    simp only [runSched, s1, s2, s3, s4, s5, s6]
  rw [hrun]
  refine ⟨rfl, rfl, ?_⟩
  rw [hdgu]
  simp [hc]

/-- Witness for the amended C9 at the fixture (credits = price = 5): run
serially, the first charge succeeds, the second is rejected and the final
balance is 0. -/
theorem C9_witness :
    (runSched cfg0 1 dbEx initThread initThread
        [false, false, false, true, true, true]).2.1.ok = some true
    ∧ (runSched cfg0 1 dbEx initThread initThread
        [false, false, false, true, true, true]).2.2.ok = some false
    ∧ (get_user (runSched cfg0 1 dbEx initThread initThread
        [false, false, false, true, true, true]).1 1).map Account.credits
        = some 0 :=
  C9_serial_at_most_one_success cfg0 dbEx 1 acctEx (by decide) (by decide)
    (by decide)

end BotLives
